import Mathlib

/-!
# Verification of the goggins-ai conversational orchestration core

Shallow embedding of the conversation state machine (`ConversationManager`),
the transcript silence-commit protocol (`WhisperCppClient`) and the callout
dedup policy (`ProductivityMonitor.captureAndAnalyze`) of the goggins-ai
repository, together with proofs of the behavioural properties stated in the
specification.

Modelling conventions:
* the single-threaded, callback-driven TypeScript code is embedded as pure
  state-transition functions `State → State × List Effect`; the effect list
  records, in order, the externally observable calls the original code makes
  (STT buffer clears, LLM generation calls, IPC events sent to the renderer);
* the outcomes of the two awaited external collaborators
  (`llmHelper.generateConversationalResponse` and
  `llmHelper.generateGogginsVoice`) are passed in as oracle parameters
  (`LLMResult`, `TTSResult`), so one transition function covers the success,
  throw and null-result paths of the original `try`/`catch` code;
* wall-clock readings (`Date.now()`) are passed in as a `now : Nat` parameter;
* `setTimeout`/`clearTimeout` handles are modelled by a Boolean "armed" flag,
  and the firing of an armed timer is a separate transition function;
* the `ConversationMemoryManager` collaborator is stateful but opaque to every
  property below, so its updates are not part of the modelled state.
-/

namespace GogginsAI

/-- `ConversationState` of the orchestrator (`ConversationManager.state`). -/
inductive ConvState
  | monitoring
  | conversation
  | responding
deriving DecidableEq, Repr

/-- `ConversationMode` (entry mode of a conversation). -/
inductive ConvMode
  | wake_word
  | callout_auto_listen
  | auto_detect
deriving DecidableEq, Repr

/-- `ConversationMessage` entries of the conversation history.
`role` is `"user"` or `"goggins"`; the ISO timestamp string is abstracted to
the `Nat` clock reading that produced it. -/
structure ConversationMessage where
  role : String
  text : String
  timestamp : Nat
deriving DecidableEq, Repr

/-- The voice-conversation fields of the module-level `config` object
(`config.ts`), with their environment-variable defaults. -/
structure Config where
  conversationAutoEndExchanges : Nat
  conversationResponseTimeout : Nat
  wakeWord : String
  interventionThreshold : Nat
deriving DecidableEq, Repr

/-- The defaults from `loadConfig()` in `config.ts`. -/
def defaultConfig : Config :=
  { conversationAutoEndExchanges := 3
    conversationResponseTimeout := 30000
    wakeWord := "hey goggins"
    interventionThreshold := 5 }


/-- JavaScript `String.prototype.trim`, implemented by structural recursion
over the character list so that it evaluates by kernel reduction
(Lean core `String.trim` is well-founded-recursive and does not). -/
def jsTrim (s : String) : String :=
  ⟨((s.data.dropWhile Char.isWhitespace).reverse.dropWhile Char.isWhitespace).reverse⟩

/-- JavaScript `String.prototype.toLowerCase` (character-wise case fold, as
used for the wake-word comparison). -/
def jsToLower (s : String) : String :=
  ⟨s.data.map Char.toLower⟩

/-- Whether `pat` occurs at the start of `hay`. -/
def charsMatchAt : List Char → List Char → Bool
  | _, [] => true
  | [], _ :: _ => false
  | c :: cs, d :: ds => c == d && charsMatchAt cs ds

/-- Whether `pat` occurs contiguously anywhere in `hay`. -/
def charsContain : List Char → List Char → Bool
  | [], pat => pat.isEmpty
  | c :: cs, pat => charsMatchAt (c :: cs) pat || charsContain cs pat

/-- JavaScript `String.prototype.includes` (substring containment). -/
def jsIncludes (s sub : String) : Bool :=
  charsContain s.data sub.data

/-- The JS-level accumulation `acc += (acc ? " " : "") + text` used by both
the manager's `accumulatedTranscript` and the client's `pendingTranscript`. -/
def joinUtterance (acc text : String) : String :=
  if acc = "" then text else acc ++ " " ++ text

/-- The mutable fields of `ConversationManager` relevant to the conversation
state machine.  `responseTimeoutArmed` models whether `responseTimeoutHandle`
holds a live timer. -/
structure CMState where
  state : ConvState
  mode : Option ConvMode
  conversationHistory : List ConversationMessage
  exchangeCount : Nat
  accumulatedTranscript : String
  isProcessingResponse : Bool
  isPlaybackActive : Bool
  responseTimeoutArmed : Bool
  lastResponseTime : Nat
  recentActivities : List String
deriving DecidableEq, Repr

/-- `ConversationManager` field initialisers (its constructor). -/
def initialCM : CMState :=
  { state := .monitoring
    mode := none
    conversationHistory := []
    exchangeCount := 0
    accumulatedTranscript := ""
    isProcessingResponse := false
    isPlaybackActive := false
    responseTimeoutArmed := false
    lastResponseTime := 0
    recentActivities := [] }

/-- `ECHO_COOLDOWN_MS` constant of `ConversationManager`
(shipped as `0`: disabled, superseded by the playback-active gate). -/
def ECHO_COOLDOWN_MS : Nat := 0

/-- Externally observable actions of `ConversationManager`, in program order:
`clearTranscript` = `sttClient.clearTranscript()`;
`genCall b` = `llmHelper.generateConversationalResponse(…, shouldEnd := b, …)`;
`speak t` = the `"conversation:speak"` IPC event (text + audio) sent to the
renderer; `stopAudio` = the `"audio:stop-immediately"` IPC event;
`stateChanged st` = the `"conversation:state-changed"` IPC event. -/
inductive Effect
  | clearTranscript
  | genCall (shouldEnd : Bool)
  | speak (text : String)
  | stopAudio
  | stateChanged (st : ConvState)
deriving DecidableEq, Repr

/-- Whether an effect is an LLM response-generation call. -/
def Effect.isGenCall : Effect → Bool
  | .genCall _ => true
  | _ => false

/-- Whether an effect is a `"conversation:speak"` delivery event — the only
channel through which a generated response (text or audio) reaches the
renderer in the conversation flow. -/
def Effect.isSpeak : Effect → Bool
  | .speak _ => true
  | _ => false

/-- Outcome of the awaited `llmHelper.generateConversationalResponse` call:
either a `{text, timestamp}` response or a thrown rejection. -/
inductive LLMResult
  | ok (text : String) (timestamp : Nat)
  | threw
deriving DecidableEq, Repr

/-- Outcome of one `speakResponse` attempt: `unavailable` = `hasTTS()` false
or the main window missing/destroyed; `ok p` = `generateGogginsVoice`
returned audio path `p`; `nullPath` = it returned `null`; `threw` = it (or
the file read) threw. -/
inductive TTSResult
  | unavailable
  | ok (audioPath : String)
  | nullPath
  | threw
deriving DecidableEq, Repr

/-- `ConversationManager.setResponseTimeout` (arms the double timer;
physically it first clears any previous handle, then arms a new one). -/
def setResponseTimeout (s : CMState) : CMState :=
  { s with responseTimeoutArmed := true }

/-- `ConversationManager.clearResponseTimeout`. -/
def clearResponseTimeout (s : CMState) : CMState :=
  { s with responseTimeoutArmed := false }

/-- `ConversationManager.enterConversationMode`. -/
def enterConversationMode (mode : ConvMode) (s : CMState) : CMState × List Effect :=
  let s := { s with
    state := .conversation
    mode := some mode
    exchangeCount := 0
    accumulatedTranscript := "" }
  let s := setResponseTimeout s
  (s, [.clearTranscript, .stateChanged .conversation])

/-- `ConversationManager.exitConversationMode`. -/
def exitConversationMode (s : CMState) : CMState × List Effect :=
  let s := { s with
    state := .monitoring
    mode := none
    conversationHistory := []
    exchangeCount := 0
    accumulatedTranscript := ""
    recentActivities := []
    isProcessingResponse := false
    isPlaybackActive := false
    responseTimeoutArmed := false }
  (s, [.clearTranscript, .stateChanged .monitoring])

/-- `ConversationManager.speakResponse`: only when `generateGogginsVoice`
returns a non-null audio path is the `"conversation:speak"` event sent (and
`lastResponseTime` updated); a null path or a thrown error is logged and the
method returns without emitting anything. -/
def speakResponse (now : Nat) (tts : TTSResult) (text : String) (s : CMState) :
    CMState × List Effect :=
  match tts with
  | .unavailable => (s, [])
  | .ok _ => ({ s with lastResponseTime := now }, [.speak text])
  | .nullPath => (s, [])
  | .threw => (s, [])

/-- The `finally` block of `generateAndSpeakResponse`: clear the processing
flag if it is somehow still set while in `responding`. -/
def finallyGuard (s : CMState) : CMState :=
  if s.state = ConvState.responding ∧ s.isProcessingResponse = true then
    { s with isProcessingResponse := false }
  else s

/-- `ConversationManager.generateAndSpeakResponse`.  Returns early if the
processing lock is held; otherwise takes the lock, enters `responding`,
clears the STT buffer, increments the exchange count, computes `shouldEnd`,
performs the generation call and either exits the conversation (error or
max exchanges reached) or returns to `conversation` and re-arms the
response timeout. -/
def generateAndSpeakResponse (cfg : Config) (now : Nat) (llm : LLMResult)
    (tts : TTSResult) (s : CMState) : CMState × List Effect :=
  if s.isProcessingResponse then (s, [])
  else
    let s := { s with isProcessingResponse := true, state := .responding }
    let pre : List Effect := [.clearTranscript, .stateChanged .responding]
    let s := { s with exchangeCount := s.exchangeCount + 1 }
    let shouldEnd : Bool := decide (cfg.conversationAutoEndExchanges ≤ s.exchangeCount)
    match llm with
    | .threw =>
      let s := { s with isProcessingResponse := false }
      let (s, ex) := exitConversationMode s
      (finallyGuard s, pre ++ [.genCall shouldEnd] ++ ex)
    | .ok text timestamp =>
      let s := { s with conversationHistory :=
        s.conversationHistory ++ [⟨"goggins", text, timestamp⟩] }
      let (s, se) := speakResponse now tts text s
      if shouldEnd then
        let s := { s with isProcessingResponse := false }
        let (s, ex) := exitConversationMode s
        (finallyGuard s, pre ++ [.genCall shouldEnd] ++ se ++ ex)
      else
        let s := { s with isProcessingResponse := false, state := .conversation }
        let s := setResponseTimeout s
        (finallyGuard s, pre ++ [.genCall shouldEnd] ++ se ++ [.stateChanged .conversation])

/-- `ConversationManager.handleFinalTranscript`.  Filters blank/short noise,
applies the (disabled) echo cooldown, drops the transcript when the
processing lock is held or the state is `responding`, auto-enters
conversation mode from `monitoring`, accumulates the transcript, appends the
user message and invokes `generateAndSpeakResponse`. -/
def handleFinalTranscript (cfg : Config) (now : Nat) (llm : LLMResult)
    (tts : TTSResult) (text : String) (s : CMState) : CMState × List Effect :=
  if text = "[BLANK_AUDIO]" ∨ (jsTrim text).length < 3 then (s, [])
  else if 0 < ECHO_COOLDOWN_MS ∧ now - s.lastResponseTime < ECHO_COOLDOWN_MS then (s, [])
  else if s.isProcessingResponse then (s, [])
  else if s.state = ConvState.responding then (s, [])
  else
    let (s, e1) :=
      if s.state = ConvState.monitoring then enterConversationMode .auto_detect s
      else (s, [])
    let s := clearResponseTimeout s
    let s := { s with
      accumulatedTranscript := joinUtterance s.accumulatedTranscript text }
    let s := { s with conversationHistory :=
      s.conversationHistory ++ [⟨"user", s.accumulatedTranscript, now⟩] }
    let (s, e2) := generateAndSpeakResponse cfg now llm tts s
    let s := { s with accumulatedTranscript := "" }
    (s, e1 ++ e2)

/-- `ConversationManager.handleUserSpeaking` (voice-activity callback):
while `responding`, voice activity sends `"audio:stop-immediately"` and
switches back to `conversation`. -/
def handleUserSpeaking (isSpeaking : Bool) (s : CMState) : CMState × List Effect :=
  if isSpeaking = true ∧ s.state = ConvState.responding then
    ({ s with state := .conversation }, [.stopAudio, .stateChanged .conversation])
  else (s, [])

/-- The extra grace window of `setResponseTimeout`'s inner `setTimeout`. -/
def GRACE_PERIOD_MS : Nat := 2000

/-- Firing of the armed double response timer, with no cancelling activity in
between: the primary timer (after `config.conversationResponseTimeout` ms)
fires, then after the extra `GRACE_PERIOD_MS` window the manager exits
conversation mode unless it is already back in `monitoring`. -/
def responseTimeoutFire (s : CMState) : CMState × List Effect :=
  if s.responseTimeoutArmed = true then
    if s.state ≠ ConvState.monitoring then exitConversationMode s else (s, [])
  else (s, [])

/-- The audio-forwarding gate of `setupMicrophoneStreaming`'s `onAudioChunk`
callback: a microphone chunk is forwarded to `sttClient.streamAudio` exactly
when this returns `true`. -/
def shouldForwardAudio (connected : Bool) (s : CMState) : Bool :=
  connected &&
    (decide (s.state = ConvState.monitoring) || decide (s.state = ConvState.conversation)) &&
    !(decide (s.state = ConvState.responding)) &&
    !s.isProcessingResponse &&
    !s.isPlaybackActive

/-- `ConversationManager.start`, on the path where it neither throws nor
returns before reaching the conversation entry: `voiceEnabled` is
`config.voiceListeningEnabled`, `connected` is `sttClient.getStatus().connected`
after `connect()`.  The permission check / microphone start either throw
(call not successful) or leave the modelled state untouched. -/
def start (voiceEnabled connected : Bool) (s : CMState) : CMState × List Effect :=
  if voiceEnabled = false then (s, [])
  else if connected = false then
    ({ s with state := .monitoring }, [.stateChanged .monitoring])
  else
    enterConversationMode .callout_auto_listen s

/-- `ConversationManager.startCalloutConversation`. -/
def startCalloutConversation (activities : List String) (s : CMState) :
    CMState × List Effect :=
  enterConversationMode .callout_auto_listen { s with recentActivities := activities }

/-! ## WhisperCppClient: transcript accumulation and silence-commit -/

/-- `TRANSCRIPT_SILENCE_THRESHOLD_MS` of `WhisperCppClient` (1.5 s). -/
def TRANSCRIPT_SILENCE_THRESHOLD_MS : Nat := 1500

/-- The period of the `transcriptCheckInterval` timer armed in
`startStreaming` (the `checkTranscriptTimeout` poll runs every 500 ms). -/
def TRANSCRIPT_CHECK_INTERVAL_MS : Nat := 500

/-- The mutable fields of `WhisperCppClient` driving the silence-commit
protocol.  `lastTranscriptChunkTime = 0` is the "no chunk received yet"
initial value set by `startStreaming`. -/
structure WState where
  pendingTranscript : String
  lastTranscriptChunkTime : Nat
  isUserSpeaking : Bool
deriving DecidableEq, Repr

/-- Externally observable actions of `WhisperCppClient`:
`finalTranscript t` = the `{type: "final", text: t}` transcript callback;
`userSpeaking b` = the VAD callback; `wakeWordDetected` = the wake-word
callback. -/
inductive WEffect
  | finalTranscript (text : String)
  | userSpeaking (b : Bool)
  | wakeWordDetected
deriving DecidableEq, Repr

/-- `WhisperCppClient.sendPendingTranscript`: emits the accumulated text
(trimmed) as a `"final"` transcript event, clears the buffer and reports the
user as no longer speaking; a no-op when the buffer is empty.  (The
callback-not-registered guard and the catch around a throwing callback are
omitted: the manager registers the callback in its constructor and the
embedded callbacks are total.) -/
def sendPendingTranscript (w : WState) : WState × List WEffect :=
  if w.pendingTranscript = "" then (w, [])
  else
    ({ w with pendingTranscript := "", isUserSpeaking := false },
     [.finalTranscript (jsTrim w.pendingTranscript), .userSpeaking false])

/-- `WhisperCppClient.checkTranscriptTimeout` (the body of the 500 ms poll):
flushes the pending transcript once no new chunk has arrived for
`TRANSCRIPT_SILENCE_THRESHOLD_MS`. -/
def checkTranscriptTimeout (now : Nat) (w : WState) : WState × List WEffect :=
  if w.pendingTranscript = "" ∨ w.lastTranscriptChunkTime = 0 then (w, [])
  else if TRANSCRIPT_SILENCE_THRESHOLD_MS ≤ now - w.lastTranscriptChunkTime then
    sendPendingTranscript w
  else (w, [])

/-- `WhisperCppClient.checkWakeWord`: case-insensitive substring match of the
configured wake word; on detection, flushes the pending transcript
immediately (when non-blank) and fires the wake-word callback. -/
def checkWakeWord (cfg : Config) (text : String) (w : WState) : WState × List WEffect :=
  if jsIncludes (jsToLower text) (jsToLower cfg.wakeWord) then
    if w.pendingTranscript ≠ "" ∧ 0 < (jsTrim w.pendingTranscript).length then
      let (w, es) := sendPendingTranscript w
      (w, es ++ [.wakeWordDetected])
    else (w, [.wakeWordDetected])
  else (w, [])

/-- The accumulation tail of `WhisperCppClient.processAudioBuffer` for a
non-empty transcription fragment `text` that survived the noise filters:
space-joins it onto the pending buffer, records the chunk time, reports
voice activity and checks the accumulated buffer for the wake word.
(The unused `lastTranscriptTime` mirror field is omitted.) -/
def accumulateFragment (cfg : Config) (now : Nat) (text : String) (w : WState) :
    WState × List WEffect :=
  let w := { w with
    pendingTranscript := joinUtterance w.pendingTranscript text }
  let w := { w with lastTranscriptChunkTime := now, isUserSpeaking := true }
  let (w, es) := checkWakeWord cfg w.pendingTranscript w
  (w, [WEffect.userSpeaking true] ++ es)

/-! ## ProductivityMonitor: callout dedup policy -/

/-- The JS fallback `summary.appGuess || summary.primaryActivity` choosing the
dedup identifier of an activity sample (`""` models a missing/empty
`appGuess`). -/
def calloutIdentifier (appGuess primaryActivity : String) : String :=
  if appGuess = "" then primaryActivity else appGuess

/-- The intervention/dedup decision of `ProductivityMonitor.captureAndAnalyze`
for one scored activity sample that reaches the intervention stage (i.e. is
not diverted by the upstream natural-pause / proactive / check-in returns,
which never touch `lastCalledOutApp`).  Input: the sample's score and
identifier fields plus the stored `lastCalledOutApp`; output: the new
`lastCalledOutApp` and whether an automatic callout is produced. -/
def calloutStep (cfg : Config) (score : Nat) (appGuess primaryActivity : String)
    (lastCalledOutApp : String) : String × Bool :=
  if cfg.interventionThreshold < score then
    let currentApp := calloutIdentifier appGuess primaryActivity
    if lastCalledOutApp = currentApp ∧ currentApp ≠ "" then
      (lastCalledOutApp, false)
    else
      (currentApp, true)
  else
    ("", false)

/-! ## Concrete sample states (used in closed witnesses and counterexamples) -/

/-- A manager state whose processing lock is held. -/
def lockedCM : CMState := { initialCM with isProcessingResponse := true }

/-- A manager state currently speaking a response. -/
def respondingCM : CMState := { initialCM with state := .responding }

/-- The state right after a callout opened a listening window. -/
def conversingCM : CMState := (enterConversationMode .callout_auto_listen initialCM).1

/-- A conversing state with two completed exchanges (one short of the
default `conversationAutoEndExchanges = 3`). -/
def nearEndCM : CMState := { conversingCM with exchangeCount := 2 }

end GogginsAI


namespace GogginsAI

/-! ## Helper lemmas about `generateAndSpeakResponse` -/

/-- When the processing lock is free, `generateAndSpeakResponse` performs
exactly one LLM generation call, with `shouldEnd` set iff the incremented
exchange count reaches the configured maximum — on every success/failure
path of generation and synthesis. -/
theorem generateAndSpeakResponse_genCalls (cfg : Config) (now : Nat) (llm : LLMResult)
    (tts : TTSResult) (s : CMState) (h : s.isProcessingResponse = false) :
    (generateAndSpeakResponse cfg now llm tts s).2.filter Effect.isGenCall =
      [Effect.genCall (decide (cfg.conversationAutoEndExchanges ≤ s.exchangeCount + 1))] := by
  cases llm <;> cases tts <;>
    simp only [generateAndSpeakResponse, h, Bool.false_eq_true, if_false,
      speakResponse, exitConversationMode, setResponseTimeout, finallyGuard] <;>
    (try split) <;>
    simp_all [Effect.isGenCall, List.filter]

/-- When the processing lock is free, the very first externally observable
action of `generateAndSpeakResponse` is the STT buffer clear
(`sttClient.clearTranscript()`), on every path. -/
theorem generateAndSpeakResponse_clears_first (cfg : Config) (now : Nat) (llm : LLMResult)
    (tts : TTSResult) (s : CMState) (h : s.isProcessingResponse = false) :
    (generateAndSpeakResponse cfg now llm tts s).2.head? = some Effect.clearTranscript := by
  cases llm <;> cases tts <;>
    simp only [generateAndSpeakResponse, h, Bool.false_eq_true, if_false,
      speakResponse, exitConversationMode, setResponseTimeout, finallyGuard] <;>
    (try split) <;>
    simp_all

/-- Generation failure: when the lock is free and
`generateConversationalResponse` throws, the manager exits to `monitoring`
with the lock cleared, history emptied and timers cancelled — on every
synthesis-oracle value. -/
theorem generateAndSpeakResponse_threw (cfg : Config) (now : Nat)
    (tts : TTSResult) (s : CMState) (h : s.isProcessingResponse = false) :
    (generateAndSpeakResponse cfg now .threw tts s).1.state = ConvState.monitoring ∧
    (generateAndSpeakResponse cfg now .threw tts s).1.isProcessingResponse = false ∧
    (generateAndSpeakResponse cfg now .threw tts s).1.conversationHistory = [] ∧
    (generateAndSpeakResponse cfg now .threw tts s).1.responseTimeoutArmed = false := by
  cases tts <;>
    simp [generateAndSpeakResponse, h, speakResponse, exitConversationMode, finallyGuard]

/-- Successful generation on the final exchange (the incremented count
reaches the configured maximum): the generation call carries
`shouldEnd = true` and, right after the response is spoken, the manager is
back in `monitoring` with history cleared, exchange count `0` and the
response timer cancelled. -/
theorem generateAndSpeakResponse_end (cfg : Config) (now : Nat) (rtext : String)
    (rts : Nat) (tts : TTSResult) (s : CMState)
    (h : s.isProcessingResponse = false)
    (hend : cfg.conversationAutoEndExchanges ≤ s.exchangeCount + 1) :
    (generateAndSpeakResponse cfg now (.ok rtext rts) tts s).2.filter Effect.isGenCall =
        [Effect.genCall true] ∧
    (generateAndSpeakResponse cfg now (.ok rtext rts) tts s).1.state = ConvState.monitoring ∧
    (generateAndSpeakResponse cfg now (.ok rtext rts) tts s).1.conversationHistory = [] ∧
    (generateAndSpeakResponse cfg now (.ok rtext rts) tts s).1.exchangeCount = 0 ∧
    (generateAndSpeakResponse cfg now (.ok rtext rts) tts s).1.responseTimeoutArmed = false ∧
    (generateAndSpeakResponse cfg now (.ok rtext rts) tts s).1.isProcessingResponse = false := by
  cases tts <;>
    simp [generateAndSpeakResponse, h, hend, speakResponse, exitConversationMode,
      finallyGuard, Effect.isGenCall, List.filter]

/-- Successful generation strictly before the final exchange: the manager
returns to `conversation` with the lock cleared and the response timeout
re-armed, and the assistant message is appended to the history — on every
synthesis-oracle value. -/
theorem generateAndSpeakResponse_continue (cfg : Config) (now : Nat) (rtext : String)
    (rts : Nat) (tts : TTSResult) (s : CMState)
    (h : s.isProcessingResponse = false)
    (hlt : s.exchangeCount + 1 < cfg.conversationAutoEndExchanges) :
    (generateAndSpeakResponse cfg now (.ok rtext rts) tts s).1.state = ConvState.conversation ∧
    (generateAndSpeakResponse cfg now (.ok rtext rts) tts s).1.isProcessingResponse = false ∧
    (generateAndSpeakResponse cfg now (.ok rtext rts) tts s).1.responseTimeoutArmed = true ∧
    (generateAndSpeakResponse cfg now (.ok rtext rts) tts s).1.conversationHistory =
      s.conversationHistory ++ [⟨"goggins", rtext, rts⟩] ∧
    (generateAndSpeakResponse cfg now (.ok rtext rts) tts s).1.exchangeCount =
      s.exchangeCount + 1 := by
  have hne : ¬ (cfg.conversationAutoEndExchanges ≤ s.exchangeCount + 1) := by omega
  cases tts <;>
    simp [generateAndSpeakResponse, h, hne, speakResponse, setResponseTimeout, finallyGuard]


/-- Path lemma: an accepted final transcript arriving in `conversation`
state reduces `handleFinalTranscript` to a response turn on the state with
the timeout cleared, the utterance accumulated and the user message
appended. -/
theorem handleFinalTranscript_conversation_eq (cfg : Config) (now : Nat)
    (llm : LLMResult) (tts : TTSResult) (text : String) (s : CMState)
    (hp : s.isProcessingResponse = false) (hst : s.state = ConvState.conversation)
    (hb : text ≠ "[BLANK_AUDIO]") (hlen : 3 ≤ (jsTrim text).length) :
    handleFinalTranscript cfg now llm tts text s =
      (let s2 : CMState := { s with
         responseTimeoutArmed := false
         accumulatedTranscript := joinUtterance s.accumulatedTranscript text
         conversationHistory := s.conversationHistory ++
           [⟨"user", joinUtterance s.accumulatedTranscript text, now⟩] }
       let r := generateAndSpeakResponse cfg now llm tts s2
       ({ r.1 with accumulatedTranscript := "" }, r.2)) := by
  have c1 : ¬ (text = "[BLANK_AUDIO]" ∨ (jsTrim text).length < 3) := by
    push_neg
    exact ⟨hb, by omega⟩
  have c2 : ¬ (0 < ECHO_COOLDOWN_MS ∧ now - s.lastResponseTime < ECHO_COOLDOWN_MS) := by
    simp [ECHO_COOLDOWN_MS]
  have c3 : ¬ (s.isProcessingResponse = true) := by simp [hp]
  have c4 : ¬ (s.state = ConvState.responding) := by simp [hst]
  have c5 : ¬ (s.state = ConvState.monitoring) := by simp [hst]
  unfold handleFinalTranscript
  rw [if_neg c1, if_neg c2, if_neg c3, if_neg c4, if_neg c5]
  simp [clearResponseTimeout, joinUtterance]

/-- Path lemma: an accepted final transcript arriving in `monitoring` state
first auto-enters conversation mode (`auto_detect`) and then runs the same
response turn on the freshly reset state. -/
theorem handleFinalTranscript_monitoring_eq (cfg : Config) (now : Nat)
    (llm : LLMResult) (tts : TTSResult) (text : String) (s : CMState)
    (hp : s.isProcessingResponse = false) (hst : s.state = ConvState.monitoring)
    (hb : text ≠ "[BLANK_AUDIO]") (hlen : 3 ≤ (jsTrim text).length) :
    handleFinalTranscript cfg now llm tts text s =
      (let s2 : CMState := { s with
         state := ConvState.conversation
         mode := some ConvMode.auto_detect
         exchangeCount := 0
         responseTimeoutArmed := false
         accumulatedTranscript := text
         conversationHistory := s.conversationHistory ++ [⟨"user", text, now⟩] }
       let r := generateAndSpeakResponse cfg now llm tts s2
       ({ r.1 with accumulatedTranscript := "" },
        [Effect.clearTranscript, Effect.stateChanged ConvState.conversation] ++ r.2)) := by
  have c1 : ¬ (text = "[BLANK_AUDIO]" ∨ (jsTrim text).length < 3) := by
    push_neg
    exact ⟨hb, by omega⟩
  have c2 : ¬ (0 < ECHO_COOLDOWN_MS ∧ now - s.lastResponseTime < ECHO_COOLDOWN_MS) := by
    simp [ECHO_COOLDOWN_MS]
  have c3 : ¬ (s.isProcessingResponse = true) := by simp [hp]
  have c4 : ¬ (s.state = ConvState.responding) := by simp [hst]
  unfold handleFinalTranscript
  rw [if_neg c1, if_neg c2, if_neg c3, if_neg c4, if_pos hst]
  simp [enterConversationMode, setResponseTimeout, clearResponseTimeout, joinUtterance]


/-! ## Claim theorems -/

/-- C1: whenever the `isProcessingResponse` lock is set (or the state is
`responding`), every final transcript delivered to `handleFinalTranscript`
is dropped without being queued and without invoking response generation;
and each accepted utterance (noise filter passed, lock free, not
responding) makes exactly one generation call. -/
theorem single_inflight_response :
    (∀ (cfg : Config) (now : Nat) (llm : LLMResult) (tts : TTSResult) (text : String)
       (s : CMState),
       s.isProcessingResponse = true ∨ s.state = ConvState.responding →
       handleFinalTranscript cfg now llm tts text s = (s, [])) ∧
    (∀ (cfg : Config) (now : Nat) (llm : LLMResult) (tts : TTSResult) (text : String)
       (s : CMState),
       s.isProcessingResponse = false → s.state ≠ ConvState.responding →
       text ≠ "[BLANK_AUDIO]" → 3 ≤ (jsTrim text).length →
       ((handleFinalTranscript cfg now llm tts text s).2.filter Effect.isGenCall).length
         = 1) := by
  constructor
  · intro cfg now llm tts text s h
    unfold handleFinalTranscript
    split
    · rfl
    split
    · rfl
    split
    · rfl
    split
    · rfl
    rename_i h1 h2 h3 h4
    rcases h with h | h
    · exact absurd h h3
    · exact absurd h h4
  · intro cfg now llm tts text s hp hr hb hlen
    cases hst : s.state with
    | monitoring =>
      rw [handleFinalTranscript_monitoring_eq cfg now llm tts text s hp hst hb hlen]
      simp only [List.filter_append, List.length_append]
      rw [generateAndSpeakResponse_genCalls _ _ _ _ _ (by simp [hp])]
      simp [Effect.isGenCall]
    | conversation =>
      rw [handleFinalTranscript_conversation_eq cfg now llm tts text s hp hst hb hlen]
      rw [generateAndSpeakResponse_genCalls _ _ _ _ _ (by simp [hp])]
      rfl
    | responding => exact absurd hst hr

/-- C1 witness: a locked state drops a perfectly good transcript; an
accepted utterance in a fresh conversation makes exactly one generation
call. -/
theorem single_inflight_response_witness :
    (handleFinalTranscript defaultConfig 1000 (.ok "Stay hard" 1000) (.ok "a.mp3")
       "keep going" lockedCM = (lockedCM, [])) ∧
    ((handleFinalTranscript defaultConfig 1000 (.ok "Stay hard" 1000) (.ok "a.mp3")
       "keep going" conversingCM).2.filter Effect.isGenCall).length = 1 :=
  ⟨single_inflight_response.1 defaultConfig 1000 (.ok "Stay hard" 1000) (.ok "a.mp3")
     "keep going" lockedCM (Or.inl (by decide)),
   single_inflight_response.2 defaultConfig 1000 (.ok "Stay hard" 1000) (.ok "a.mp3")
     "keep going" conversingCM (by decide) (by decide) (by decide) (by decide)⟩

/-- C3: an audio chunk arriving while the playback-active flag is set, the
state is `responding` or the processing lock is held is never forwarded to
the speech-to-text client; and when a response turn begins (lock acquired),
the very first observable action is the transcript/audio buffer clear. -/
theorem echo_gate :
    (∀ (connected : Bool) (s : CMState),
       s.isPlaybackActive = true ∨ s.state = ConvState.responding ∨
         s.isProcessingResponse = true →
       shouldForwardAudio connected s = false) ∧
    (∀ (cfg : Config) (now : Nat) (llm : LLMResult) (tts : TTSResult) (s : CMState),
       s.isProcessingResponse = false →
       (generateAndSpeakResponse cfg now llm tts s).2.head? =
         some Effect.clearTranscript) := by
  constructor
  · intro connected s h
    rcases h with h | h | h <;> simp [shouldForwardAudio, h]
  · exact generateAndSpeakResponse_clears_first

/-- C3 witness: a chunk during playback (and one during `responding`) is not
forwarded; a fresh response turn clears the buffer first. -/
theorem echo_gate_witness :
    (shouldForwardAudio true { conversingCM with isPlaybackActive := true } = false) ∧
    (shouldForwardAudio true respondingCM = false) ∧
    ((generateAndSpeakResponse defaultConfig 1000 (.ok "Stay hard" 1000) (.ok "a.mp3")
        conversingCM).2.head? = some Effect.clearTranscript) :=
  ⟨echo_gate.1 true { conversingCM with isPlaybackActive := true } (Or.inl (by decide)),
   echo_gate.1 true respondingCM (Or.inr (Or.inl (by decide))),
   echo_gate.2 defaultConfig 1000 (.ok "Stay hard" 1000) (.ok "a.mp3") conversingCM
     (by decide)⟩

/-- C6: entering `conversation` and then (with no transcript in between)
letting the armed double response timer fire — the primary
`config.conversationResponseTimeout` timer followed by the
`GRACE_PERIOD_MS` grace window — leaves the orchestrator in `monitoring`
with the conversation history cleared to the empty list. -/
theorem timeout_recovery :
    ∀ (m : ConvMode) (s : CMState),
      (responseTimeoutFire (enterConversationMode m s).1).1.state =
        ConvState.monitoring ∧
      (responseTimeoutFire (enterConversationMode m s).1).1.conversationHistory = [] := by
  intro m s
  simp [enterConversationMode, setResponseTimeout, responseTimeoutFire,
    exitConversationMode]

/-- C7: voice activity detected while `responding` emits the
`"audio:stop-immediately"` signal, transitions to `conversation`, and leaves
the exchange count unchanged. -/
theorem interruption_stop_audio :
    ∀ s : CMState, s.state = ConvState.responding →
      handleUserSpeaking true s =
        ({ s with state := ConvState.conversation },
         [Effect.stopAudio, Effect.stateChanged ConvState.conversation]) ∧
      (handleUserSpeaking true s).1.exchangeCount = s.exchangeCount := by
  intro s h
  constructor
  · unfold handleUserSpeaking
    rw [if_pos ⟨rfl, h⟩]
  · unfold handleUserSpeaking
    rw [if_pos ⟨rfl, h⟩]

/-- C7 witness at a concrete responding state. -/
theorem interruption_stop_audio_witness :
    handleUserSpeaking true respondingCM =
      ({ respondingCM with state := ConvState.conversation },
       [Effect.stopAudio, Effect.stateChanged ConvState.conversation]) ∧
    (handleUserSpeaking true respondingCM).1.exchangeCount =
      respondingCM.exchangeCount :=
  interruption_stop_audio respondingCM (by decide)

/-- C8: a final transcript equal to the `"[BLANK_AUDIO]"` no-speech sentinel
or whose trimmed length is below the 3-character minimum is a complete
no-op: the state is unchanged and no effect (no message append, no state
transition, no generation call) is produced. -/
theorem final_transcript_noise_filter :
    ∀ (cfg : Config) (now : Nat) (llm : LLMResult) (tts : TTSResult) (text : String)
      (s : CMState),
      text = "[BLANK_AUDIO]" ∨ (jsTrim text).length < 3 →
      handleFinalTranscript cfg now llm tts text s = (s, []) := by
  intro cfg now llm tts text s h
  unfold handleFinalTranscript
  rw [if_pos h]

/-- C8 witness: the sentinel and a 2-character fragment are both dropped. -/
theorem final_transcript_noise_filter_witness :
    (handleFinalTranscript defaultConfig 1000 (.ok "x" 1) (.ok "a.mp3") "[BLANK_AUDIO]"
       conversingCM = (conversingCM, [])) ∧
    (handleFinalTranscript defaultConfig 1000 (.ok "x" 1) (.ok "a.mp3") " no "
       conversingCM = (conversingCM, [])) :=
  ⟨final_transcript_noise_filter defaultConfig 1000 (.ok "x" 1) (.ok "a.mp3")
     "[BLANK_AUDIO]" conversingCM (Or.inl rfl),
   final_transcript_noise_filter defaultConfig 1000 (.ok "x" 1) (.ok "a.mp3")
     " no " conversingCM (Or.inr (by decide))⟩

/-- C10: a successful `start()` (voice listening enabled, Whisper connected)
leaves the orchestrator in `conversation` with mode `callout_auto_listen`,
exchange count 0, pending transcript cleared (both the accumulator and the
STT buffer) and the response timeout armed — not in `monitoring`. -/
theorem start_listens_immediately :
    ∀ s : CMState,
      (start true true s).1.state = ConvState.conversation ∧
      (start true true s).1.mode = some ConvMode.callout_auto_listen ∧
      (start true true s).1.exchangeCount = 0 ∧
      (start true true s).1.accumulatedTranscript = "" ∧
      (start true true s).1.responseTimeoutArmed = true ∧
      Effect.clearTranscript ∈ (start true true s).2 ∧
      (start true true s).1.state ≠ ConvState.monitoring := by
  intro s
  simp [start, enterConversationMode, setResponseTimeout]

/-- C2 counterexample: with the default `conversationAutoEndExchanges = 3`,
after completing exactly 3 response cycles the conversation is already over
(the machine is in `monitoring`): the shouldEnd=true generation is the 3rd
response itself, and the "next" response actually generated (by a 4th
transcript, which starts a fresh conversation) carries `shouldEnd = false` —
refuting the claim that *after* `maxExchanges` completed cycles the *next*
response is generated with shouldEnd=true. -/
theorem exchange_termination_counterexample :
    (let r1 := handleFinalTranscript defaultConfig 1000 (.ok "Stay hard" 1000)
       (.ok "a.mp3") "keep going" conversingCM
     let r2 := handleFinalTranscript defaultConfig 1100 (.ok "Stay hard" 1100)
       (.ok "a.mp3") "keep going" r1.1
     let r3 := handleFinalTranscript defaultConfig 1200 (.ok "Stay hard" 1200)
       (.ok "a.mp3") "keep going" r2.1
     let r4 := handleFinalTranscript defaultConfig 1300 (.ok "Stay hard" 1300)
       (.ok "a.mp3") "keep going" r3.1
     r1.2.filter Effect.isGenCall = [Effect.genCall false] ∧
     r2.2.filter Effect.isGenCall = [Effect.genCall false] ∧
     r3.2.filter Effect.isGenCall = [Effect.genCall true] ∧
     r3.1.state = ConvState.monitoring ∧
     r4.2.filter Effect.isGenCall = [Effect.genCall false]) := by
  decide

/-- C2 (amended): for every conversation, the response cycle that completes
the `maxExchanges`-th exchange — i.e. the one that begins after exactly
`maxExchanges − 1` completed response cycles — is generated with
shouldEnd=true, and immediately after that response is spoken the
orchestrator returns to `monitoring` with history cleared, exchange count
reset to 0, and timers cancelled. -/
theorem exchange_termination_amended :
    ∀ (cfg : Config) (now : Nat) (rtext : String) (rts : Nat) (tts : TTSResult)
      (text : String) (s : CMState),
      s.state = ConvState.conversation →
      s.isProcessingResponse = false →
      text ≠ "[BLANK_AUDIO]" → 3 ≤ (jsTrim text).length →
      s.exchangeCount + 1 = cfg.conversationAutoEndExchanges →
      ((handleFinalTranscript cfg now (.ok rtext rts) tts text s).2.filter
          Effect.isGenCall = [Effect.genCall true]) ∧
      (handleFinalTranscript cfg now (.ok rtext rts) tts text s).1.state =
        ConvState.monitoring ∧
      (handleFinalTranscript cfg now (.ok rtext rts) tts text s).1.conversationHistory
        = [] ∧
      (handleFinalTranscript cfg now (.ok rtext rts) tts text s).1.exchangeCount = 0 ∧
      (handleFinalTranscript cfg now (.ok rtext rts) tts text s).1.responseTimeoutArmed
        = false := by
  intro cfg now rtext rts tts text s hst hp hb hlen hcount
  rw [handleFinalTranscript_conversation_eq cfg now (.ok rtext rts) tts text s hp hst
    hb hlen]
  have h2 := generateAndSpeakResponse_end cfg now rtext rts tts
    { s with
      responseTimeoutArmed := false
      accumulatedTranscript := joinUtterance s.accumulatedTranscript text
      conversationHistory := s.conversationHistory ++
        [⟨"user", joinUtterance s.accumulatedTranscript text, now⟩] }
    (by simp [hp]) (by simp; omega)
  obtain ⟨hg, hstate, hh, hc, ht, hl⟩ := h2
  exact ⟨hg, hstate, hh, hc, ht⟩

/-- C2 witness: third utterance of a default-config conversation. -/
theorem exchange_termination_amended_witness :
    ((handleFinalTranscript defaultConfig 1200 (.ok "Stay hard" 1200) (.ok "a.mp3")
        "keep going" nearEndCM).2.filter Effect.isGenCall = [Effect.genCall true]) ∧
    (handleFinalTranscript defaultConfig 1200 (.ok "Stay hard" 1200) (.ok "a.mp3")
        "keep going" nearEndCM).1.state = ConvState.monitoring ∧
    (handleFinalTranscript defaultConfig 1200 (.ok "Stay hard" 1200) (.ok "a.mp3")
        "keep going" nearEndCM).1.conversationHistory = [] ∧
    (handleFinalTranscript defaultConfig 1200 (.ok "Stay hard" 1200) (.ok "a.mp3")
        "keep going" nearEndCM).1.exchangeCount = 0 ∧
    (handleFinalTranscript defaultConfig 1200 (.ok "Stay hard" 1200) (.ok "a.mp3")
        "keep going" nearEndCM).1.responseTimeoutArmed = false :=
  exchange_termination_amended defaultConfig 1200 "Stay hard" 1200 (.ok "a.mp3")
    "keep going" nearEndCM (by decide) (by decide) (by decide) (by decide) (by decide)

/-- C5 counterexample: when synthesis returns a null audio path (and likewise
when it throws), `speakResponse` emits nothing at all — there is no
text-only delivery; the whole turn produces no `"conversation:speak"` event
even though it completes normally. -/
theorem provider_failure_counterexample :
    (speakResponse 1000 TTSResult.nullPath "Stay hard" respondingCM =
      (respondingCM, [])) ∧
    (speakResponse 1000 TTSResult.threw "Stay hard" respondingCM =
      (respondingCM, [])) ∧
    (let r := handleFinalTranscript defaultConfig 1000 (.ok "Stay hard" 1000)
       TTSResult.nullPath "keep going" conversingCM
     r.1.state = ConvState.conversation ∧ r.2.filter Effect.isSpeak = []) := by
  decide

/-- C5 (amended): if response generation throws, the orchestrator exits to
`monitoring` and clears the processing lock after a single generation
attempt (no retry); if speech synthesis fails or returns a null audio path,
the turn is not aborted — the conversation continues (back to
`conversation`, lock cleared, response kept in history) but nothing is
delivered for that turn (no speak event at all, rather than a text-only
one). -/
theorem provider_failure_recovery_amended :
    (∀ (cfg : Config) (now : Nat) (tts : TTSResult) (s : CMState),
       s.isProcessingResponse = false →
       (generateAndSpeakResponse cfg now .threw tts s).1.state = ConvState.monitoring ∧
       (generateAndSpeakResponse cfg now .threw tts s).1.isProcessingResponse = false ∧
       ((generateAndSpeakResponse cfg now .threw tts s).2.filter Effect.isGenCall).length
         = 1) ∧
    (∀ (cfg : Config) (now : Nat) (rtext : String) (rts : Nat) (tts : TTSResult)
       (s : CMState),
       s.isProcessingResponse = false →
       s.exchangeCount + 1 < cfg.conversationAutoEndExchanges →
       tts = TTSResult.nullPath ∨ tts = TTSResult.threw →
       (generateAndSpeakResponse cfg now (.ok rtext rts) tts s).1.state =
         ConvState.conversation ∧
       (generateAndSpeakResponse cfg now (.ok rtext rts) tts s).1.isProcessingResponse
         = false ∧
       (generateAndSpeakResponse cfg now (.ok rtext rts) tts s).1.conversationHistory =
         s.conversationHistory ++ [⟨"goggins", rtext, rts⟩] ∧
       (generateAndSpeakResponse cfg now (.ok rtext rts) tts s).2.filter Effect.isSpeak
         = []) := by
  constructor
  · intro cfg now tts s h
    have h1 := generateAndSpeakResponse_threw cfg now tts s h
    have h2 := generateAndSpeakResponse_genCalls cfg now .threw tts s h
    exact ⟨h1.1, h1.2.1, by rw [h2]; rfl⟩
  · intro cfg now rtext rts tts s h hlt htts
    have hne : ¬ (cfg.conversationAutoEndExchanges ≤ s.exchangeCount + 1) := by omega
    have h1 := generateAndSpeakResponse_continue cfg now rtext rts tts s h hlt
    refine ⟨h1.1, h1.2.1, h1.2.2.2.1, ?_⟩
    rcases htts with rfl | rfl <;>
      simp [generateAndSpeakResponse, h, hne, speakResponse, setResponseTimeout,
        finallyGuard, Effect.isSpeak, List.filter]

/-- C5 witness: a generation failure and a null-synthesis turn at concrete
states. -/
theorem provider_failure_recovery_amended_witness :
    ((generateAndSpeakResponse defaultConfig 1000 .threw (.ok "a.mp3")
        conversingCM).1.state = ConvState.monitoring ∧
     (generateAndSpeakResponse defaultConfig 1000 .threw (.ok "a.mp3")
        conversingCM).1.isProcessingResponse = false ∧
     ((generateAndSpeakResponse defaultConfig 1000 .threw (.ok "a.mp3")
        conversingCM).2.filter Effect.isGenCall).length = 1) ∧
    ((generateAndSpeakResponse defaultConfig 1000 (.ok "Stay hard" 1000)
        TTSResult.nullPath conversingCM).1.state = ConvState.conversation ∧
     (generateAndSpeakResponse defaultConfig 1000 (.ok "Stay hard" 1000)
        TTSResult.nullPath conversingCM).1.isProcessingResponse = false ∧
     (generateAndSpeakResponse defaultConfig 1000 (.ok "Stay hard" 1000)
        TTSResult.nullPath conversingCM).1.conversationHistory =
       conversingCM.conversationHistory ++ [⟨"goggins", "Stay hard", 1000⟩] ∧
     (generateAndSpeakResponse defaultConfig 1000 (.ok "Stay hard" 1000)
        TTSResult.nullPath conversingCM).2.filter Effect.isSpeak = []) :=
  ⟨provider_failure_recovery_amended.1 defaultConfig 1000 (.ok "a.mp3") conversingCM
     (by decide),
   provider_failure_recovery_amended.2 defaultConfig 1000 "Stay hard" 1000
     TTSResult.nullPath conversingCM (by decide) (by decide) (Or.inl rfl)⟩

/-- C9 counterexample: two consecutive high-score samples whose identifier
(app hint with activity-description fallback) is empty produce two
automatic callouts, despite the identifier being identical and productivity
never recovering — the `&& currentApp` truthiness guard in the source
exempts the empty identifier from dedup. -/
theorem callout_dedup_counterexample :
    (calloutStep defaultConfig 8 "" "" "").2 = true ∧
    (calloutStep defaultConfig 8 "" ""
      (calloutStep defaultConfig 8 "" "" "").1).2 = true := by
  decide

/-- C9 (amended): the policy records the identifier (app name, or activity
description fallback) of the last automatically-called-out distraction, and
for every subsequent high-score sample with an identical **non-empty**
identifier no new automatic callout is produced, until either the
identifier changes or productivity recovers (score at or below threshold),
which clears the stored identifier and re-enables a callout for it. -/
theorem callout_dedup_amended :
    ∀ (cfg : Config) (score : Nat) (appGuess primaryActivity lastApp : String),
      (cfg.interventionThreshold < score →
        calloutIdentifier appGuess primaryActivity ≠ "" →
        lastApp = calloutIdentifier appGuess primaryActivity →
        calloutStep cfg score appGuess primaryActivity lastApp = (lastApp, false)) ∧
      (cfg.interventionThreshold < score →
        lastApp ≠ calloutIdentifier appGuess primaryActivity →
        calloutStep cfg score appGuess primaryActivity lastApp =
          (calloutIdentifier appGuess primaryActivity, true)) ∧
      (score ≤ cfg.interventionThreshold →
        calloutStep cfg score appGuess primaryActivity lastApp = ("", false)) := by
  intro cfg score a pa last
  refine ⟨?_, ?_, ?_⟩
  · intro hs hne heq
    unfold calloutStep
    rw [if_pos hs, if_pos ⟨heq, hne⟩]
  · intro hs hne
    unfold calloutStep
    rw [if_pos hs, if_neg (by rintro ⟨h1, h2⟩; exact hne h1)]
  · intro hs
    unfold calloutStep
    rw [if_neg (by omega)]

/-- C9 witness: the "YouTube / Docs / YouTube" scenario plus recovery. -/
theorem callout_dedup_amended_witness :
    (calloutStep defaultConfig 8 "YouTube" "watching videos" "YouTube" =
      ("YouTube", false)) ∧
    (calloutStep defaultConfig 8 "Docs" "writing a report" "YouTube" =
      ("Docs", true)) ∧
    (calloutStep defaultConfig 3 "YouTube" "watching videos" "YouTube" =
      ("", false)) :=
  ⟨(callout_dedup_amended defaultConfig 8 "YouTube" "watching videos" "YouTube").1
     (by decide) (by decide) (by decide),
   (callout_dedup_amended defaultConfig 8 "Docs" "writing a report" "YouTube").2.1
     (by decide) (by decide),
   (callout_dedup_amended defaultConfig 3 "YouTube" "watching videos" "YouTube").2.2
     (by decide)⟩

/-- C4: the 500 ms periodic check flushes the pending buffer — emitting the
space-joined accumulated text (trimmed) as a `"final"` transcript and then
clearing the buffer — exactly when the buffer is non-empty and `now` minus
the last-fragment time is at least the 1.5 s silence threshold; and a
fragment whose accumulation makes the buffer contain the configured wake
phrase (case-insensitive substring) flushes it immediately, with no time
condition. -/
theorem silence_commit_protocol :
    (TRANSCRIPT_CHECK_INTERVAL_MS = 500 ∧ TRANSCRIPT_SILENCE_THRESHOLD_MS = 1500) ∧
    (∀ (now : Nat) (w : WState),
       (w.pendingTranscript ≠ "" → w.lastTranscriptChunkTime ≠ 0) →
       (w.pendingTranscript ≠ "" ∧
           TRANSCRIPT_SILENCE_THRESHOLD_MS ≤ now - w.lastTranscriptChunkTime →
         checkTranscriptTimeout now w =
           ({ w with pendingTranscript := "", isUserSpeaking := false },
            [WEffect.finalTranscript (jsTrim w.pendingTranscript),
             WEffect.userSpeaking false])) ∧
       (¬ (w.pendingTranscript ≠ "" ∧
           TRANSCRIPT_SILENCE_THRESHOLD_MS ≤ now - w.lastTranscriptChunkTime) →
         checkTranscriptTimeout now w = (w, []))) ∧
    (∀ (cfg : Config) (now : Nat) (text : String) (w : WState),
       jsIncludes (jsToLower (joinUtterance w.pendingTranscript text))
         (jsToLower cfg.wakeWord) = true →
       joinUtterance w.pendingTranscript text ≠ "" →
       0 < (jsTrim (joinUtterance w.pendingTranscript text)).length →
       (accumulateFragment cfg now text w).1.pendingTranscript = "" ∧
       WEffect.finalTranscript (jsTrim (joinUtterance w.pendingTranscript text)) ∈
         (accumulateFragment cfg now text w).2) := by
  refine ⟨⟨rfl, rfl⟩, ?_, ?_⟩
  · intro now w hwf
    constructor
    · rintro ⟨hne, hth⟩
      unfold checkTranscriptTimeout
      rw [if_neg (by push_neg; exact ⟨hne, hwf hne⟩), if_pos hth]
      unfold sendPendingTranscript
      rw [if_neg hne]
    · intro hn
      unfold checkTranscriptTimeout
      by_cases h1 : w.pendingTranscript = "" ∨ w.lastTranscriptChunkTime = 0
      · rw [if_pos h1]
      · rw [if_neg h1]
        push_neg at h1 hn
        have hlt := hn h1.1
        rw [if_neg (by omega)]
  · intro cfg now text w hinc hne htr
    simp [accumulateFragment, checkWakeWord, sendPendingTranscript, hinc, hne, htr]

/-- C4 witness: a flush after 1.6 s of silence, a non-flush at 1.4 s, and an
immediate wake-word flush. -/
theorem silence_commit_protocol_witness :
    (checkTranscriptTimeout 2000 ⟨"hey there", 400, true⟩ =
      (⟨"", 400, false⟩,
       [WEffect.finalTranscript "hey there", WEffect.userSpeaking false])) ∧
    (checkTranscriptTimeout 1800 ⟨"hey there", 400, true⟩ =
      (⟨"hey there", 400, true⟩, [])) ∧
    ((accumulateFragment defaultConfig 500 "Hey Goggins listen"
        ⟨"ok", 400, false⟩).1.pendingTranscript = "" ∧
     WEffect.finalTranscript (jsTrim (joinUtterance "ok" "Hey Goggins listen")) ∈
       (accumulateFragment defaultConfig 500 "Hey Goggins listen"
         ⟨"ok", 400, false⟩).2) :=
  ⟨((silence_commit_protocol.2.1 2000 ⟨"hey there", 400, true⟩
      (by decide)).1 (by decide)),
   ((silence_commit_protocol.2.1 1800 ⟨"hey there", 400, true⟩
      (by decide)).2 (by decide)),
   silence_commit_protocol.2.2 defaultConfig 500 "Hey Goggins listen"
     ⟨"ok", 400, false⟩ (by decide) (by decide) (by decide)⟩

end GogginsAI
